import Mathlib

/-!
# homework-object-storage: routing and node-registry layer

A shallow embedding of `pkg/internals/objectStorage/minio.go`,
`pkg/internals/objectStorage/storage.go` and the two HTTP handlers of
`pkg/server/handlers`, followed by theorems about them.

Modelling conventions.

* A Go `string` is a Lean `String`; its bytes are the UTF-8 encoding of its
  characters (`goBytes`), `len(s)` is the number of those bytes (`len`), and
  `for _, char := range s` visits the characters of `s` in order.  Strings that
  are not valid UTF-8 are outside the model.
* A Go `error` is `Option String`: `none` is `nil`, `some m` is an error whose
  `Error()` text is `m`.  `fmt.Errorf("p: %w", err)` has text `"p: " ++ err`.
* `uint32` values are naturals below `2 ^ 32`; Go `int` is the 64-bit signed
  integer of the usual targets.
* `map[string]*minio.Client` is an association list read from the front.
* Calls into MinIO and Docker are external: their results are inputs of the
  functions that make them, and a function that talks to a backend returns the
  list of backend calls it made next to its result.
* Logging and the ten second sleep between retries have no effect on the values
  studied here and are left out.
-/

namespace ObjectStorage

/-! ## Go strings -/

/-- UTF-8 encoding of one code point, as Go stores it in a `string`. -/
def utf8Bytes (c : Char) : List Nat :=
  let n := c.toNat
  if n < 128 then [n]
  else if n < 2048 then [192 + n / 64, 128 + n % 64]
  else if n < 65536 then [224 + n / 4096, 128 + (n / 64) % 64, 128 + n % 64]
  else [240 + n / 262144, 128 + (n / 4096) % 64, 128 + (n / 64) % 64, 128 + n % 64]

/-- Go `[]byte(s)`. -/
def goBytes (s : String) : List Nat :=
  s.data.flatMap utf8Bytes

/-- Go `len(s)`: the number of bytes of the string. -/
def len (s : String) : Nat :=
  (goBytes s).length

/-! ## `validateObjectID` (minio.go) -/

/-- The condition negated in the loop of `validateObjectID`. -/
def isAlnum (char : Char) : Prop :=
  ('a' ≤ char ∧ char ≤ 'z') ∨ ('A' ≤ char ∧ char ≤ 'Z') ∨ ('0' ≤ char ∧ char ≤ '9')

instance (char : Char) : Decidable (isAlnum char) := by
  unfold isAlnum
  infer_instance

/-- The `for _, char := range id` loop of `validateObjectID`. -/
def validateChars : List Char → Option String
  | [] => none
  | char :: rest =>
    if ¬ isAlnum char then
      some "object ID must contain only alphanumeric characters"
    else validateChars rest

/-- Go `validateObjectID`: `none` is `nil`. -/
def validateObjectID (id : String) : Option String :=
  if len id = 0 ∨ len id > 32 then
    some "object ID must be between 1 and 32 characters"
  else validateChars id.data

/-! ## FNV-1a, 32 bit (`hash/fnv`) -/

/-- Offset basis of `fnv.New32a`. -/
def offset32 : Nat := 2166136261

/-- Multiplier of the 32-bit FNV hashes. -/
def prime32 : Nat := 16777619

/-- Go `(*sum32a).Write`: for each byte, xor then multiply, in `uint32`. -/
def sum32aWrite (hash : Nat) : List Nat → Nat
  | [] => hash
  | c :: rest => sum32aWrite (((hash ^^^ c) * prime32) % 2 ^ 32) rest

/-- Go `h := fnv.New32a(); h.Write(data); h.Sum32()`. -/
def fnv32a (data : List Nat) : Nat :=
  sum32aWrite offset32 data

/-- Go conversion `int(u)` of a `uint32` to the 64-bit signed `int`. -/
def uint32ToInt (u : Nat) : Int :=
  let v : Nat := u % 2 ^ 64
  if v < 2 ^ 63 then (v : Int) else (v : Int) - 2 ^ 64

/-! ## Data model (dockerClient.go, minio.go) -/

/-- Go `docker.MinioNode`. -/
structure MinioNode where
  ID : String
  Name : String
  IPAddress : String
  Port : String
  AccessKey : String
  SecretKey : String
deriving DecidableEq, Repr

/-- Go `docker.MinioNode{}`, the zero value. -/
def MinioNode.zero : MinioNode := ⟨"", "", "", "", "", ""⟩

/-- A `*minio.Client`: the endpoint and credentials `minio.New` was given, and a
serial number standing for the identity of the allocated handle. -/
structure Client where
  endpoint : String
  accessKey : String
  secretKey : String
  serial : Nat
deriving DecidableEq, Repr

/-- Go `map[string]*minio.Client`. -/
abbrev ClientMap := List (String × Client)

/-- Go `client, exists := m[key]`. -/
def mapLookup : ClientMap → String → Option Client
  | [], _ => none
  | (k, v) :: rest, key => if k = key then some v else mapLookup rest key

/-- Go `m[key] = client`: the new binding replaces an older one. -/
def mapInsert (m : ClientMap) (key : String) (client : Client) : ClientMap :=
  (key, client) :: m.filter (fun kv => kv.1 ≠ key)

/-- Go `minioStorageService`, without the mutex and the logger. -/
structure minioStorageService where
  nodes : List MinioNode
  clients : ClientMap
deriving DecidableEq, Repr

/-- Go `const bucketName`. -/
def bucketName : String := "objects"

/-! ## `initializeClient` and `NewminioStorageService` (minio.go) -/

/-- What the external calls of one `initializeClient` call answer: `minio.New`
(an error text, or the serial of the handle it allocates), `BucketExists` and
`MakeBucket`.  An answer is only read when the code reaches the call. -/
structure InitOutcome where
  newClient : Except String Nat
  bucketExists : Except String Bool
  makeBucket : Option String

/-- Go `(*minioStorageService).initializeClient`. -/
def initializeClient (s : minioStorageService) (node : MinioNode) (o : InitOutcome) :
    minioStorageService × Option String :=
  let endpoint := node.IPAddress ++ ":" ++ node.Port
  match o.newClient with
  | .error err => (s, some ("failed to create Minio client: " ++ err))
  | .ok serial =>
    let client : Client := ⟨endpoint, node.AccessKey, node.SecretKey, serial⟩
    match o.bucketExists with
    | .error err => (s, some ("failed to check if bucket exists: " ++ err))
    | .ok found =>
      match (if ¬ found then o.makeBucket else none) with
      | some err => (s, some ("failed to create bucket: " ++ err))
      | none => ({ s with clients := mapInsert s.clients node.ID client }, none)

/-- The loop `for i := 0; i < 5; i++` of `NewminioStorageService` for one node,
from counter `i` with `fuel` iterations left.  The result carries the results of
the `initializeClient` calls made, oldest first. -/
def retryLoop (node : MinioNode) (outcome : Nat → InitOutcome) :
    Nat → Nat → minioStorageService → minioStorageService × List (Option String)
  | 0, _, s => (s, [])
  | fuel + 1, i, s =>
    match initializeClient s node (outcome i) with
    | (s1, none) => (s1, [none])
    | (s1, some err) =>
      let r := retryLoop node outcome fuel (i + 1) s1
      (r.1, some err :: r.2)

/-- The body of `for _, node := range nodes` in `NewminioStorageService`: the
retry loop, then the `initializeClient` call of the `if` that follows it.
The `k`-th call for this node reads `outcome k`. -/
def initNode (s : minioStorageService) (node : MinioNode) (outcome : Nat → InitOutcome) :
    minioStorageService × List (Option String) :=
  let r := retryLoop node outcome 5 0 s
  let f := initializeClient r.1 node (outcome r.2.length)
  (f.1, r.2 ++ [f.2])

/-- The loop `for _, node := range nodes`, at position `pos` of the node list.
The result carries, per node visited, the results of its `initializeClient`
calls. -/
def initNodes (outcomes : Nat → Nat → InitOutcome) :
    List MinioNode → Nat → minioStorageService →
      minioStorageService × List (List (Option String))
  | [], _, s => (s, [])
  | node :: rest, pos, s =>
    let r := initNode s node (outcomes pos)
    let t := initNodes outcomes rest (pos + 1) r.1
    (t.1, r.2 :: t.2)

/-- Go `NewminioStorageService`.  `outcomes pos k` is what the external calls
answer during the `k`-th `initializeClient` call for the node at position
`pos`.  The second component lists, per node, the results of the
`initializeClient` calls made for it. -/
def NewminioStorageService (nodes : List MinioNode) (outcomes : Nat → Nat → InitOutcome) :
    minioStorageService × List (List (Option String)) :=
  initNodes outcomes nodes 0 { nodes := nodes, clients := [] }

/-! ## `getNodeForID` (minio.go) -/

/-- The value of `nodeIndex` in `getNodeForID`; Go `%` truncates toward zero. -/
def nodeIndex (s : minioStorageService) (objectID : String) : Int :=
  Int.tmod (uint32ToInt (fnv32a (goBytes objectID))) (s.nodes.length : Int)

/-- Go `getNodeForID`.  `.error (node, text)` stands for the return
`node, nil, err` and `.ok (node, client)` for `node, client, nil`.  Indexing
`s.nodes[nodeIndex]` outside the slice would stop the call with a runtime
error; the zero node stands for that. -/
def getNodeForID (s : minioStorageService) (objectID : String) :
    Except (MinioNode × String) (MinioNode × Client) :=
  if s.nodes.length = 0 then
    .error (MinioNode.zero, "no storage nodes available")
  else
    let node :=
      if nodeIndex s objectID < 0 then MinioNode.zero
      else s.nodes.getD (nodeIndex s objectID).toNat MinioNode.zero
    match mapLookup s.clients node.ID with
    | none => .error (node, "client for node " ++ node.Name ++ " not initialized")
    | some client => .ok (node, client)

/-! ## The backends

The MinIO servers are external.  They are modelled as one finite map from
(endpoint, bucket, key) to the stored bytes; a call fails when a fault is
injected for it, and a fault-free `Stat` of a missing key answers `NoSuchKey`. -/

/-- An error coming back from a MinIO client call: `Code` is
`minio.ToErrorResponse(err).Code`, `text` is `err.Error()`. -/
structure BackendError where
  Code : String
  text : String
deriving DecidableEq, Repr

/-- The objects held by all backends, newest binding first. -/
abbrev Store := List ((String × String × String) × List Nat)

/-- The bytes stored at an endpoint under a bucket and key. -/
def storeLookup : Store → String × String × String → Option (List Nat)
  | [], _ => none
  | (k, v) :: rest, key => if k = key then some v else storeLookup rest key

/-- One call made through a client handle, with the error it returned. -/
inductive Call where
  | putObject (client : Client) (bucket key : String) (data : List Nat) (size : Int)
      (res : Option BackendError)
  | getObject (client : Client) (bucket key : String) (res : Option BackendError)
  | stat (client : Client) (bucket key : String) (res : Option BackendError)
deriving DecidableEq, Repr

/-- Backend side of `client.PutObject`: with no fault, `size` bytes are read
from `data` and stored; a reader that ends early makes the upload fail. -/
def backendPut (w : Store) (fault : Option BackendError) (client : Client)
    (bucket key : String) (data : List Nat) (size : Int) : Store × Option BackendError :=
  match fault with
  | some e => (w, some e)
  | none =>
    if 0 ≤ size ∧ size.toNat ≤ data.length then
      (((client.endpoint, bucket, key), data.take size.toNat) :: w, none)
    else (w, some ⟨"IncompleteBody", "unexpected EOF"⟩)

/-- Backend side of `obj.Stat()`. -/
def backendStat (w : Store) (fault : Option BackendError) (client : Client)
    (bucket key : String) : Option BackendError :=
  match fault with
  | some e => some e
  | none =>
    match storeLookup w (client.endpoint, bucket, key) with
    | none => some ⟨"NoSuchKey", "The specified key does not exist."⟩
    | some _ => none

/-- Faults injected into the backend calls of one `GetObject`. -/
structure GetFaults where
  get : Option BackendError
  stat : Option BackendError

/-- No fault at all. -/
def GetFaults.none : GetFaults := ⟨Option.none, Option.none⟩

/-! ## `PutObject` and `GetObject` (minio.go) -/

/-- What `PutObject` returns, the backends afterwards and the calls made. -/
structure PutResult where
  err : Option String
  store : Store
  calls : List Call
deriving DecidableEq, Repr

/-- Go `(*minioStorageService).PutObject`. -/
def PutObject (s : minioStorageService) (w : Store) (fault : Option BackendError)
    (objectID : String) (data : List Nat) (size : Int) : PutResult :=
  match validateObjectID objectID with
  | some err => ⟨some err, w, []⟩
  | none =>
    match getNodeForID s objectID with
    | .error (_, err) => ⟨some err, w, []⟩
    | .ok (_, client) =>
      match backendPut w fault client bucketName objectID data size with
      | (w1, some e) =>
        ⟨some ("failed to store object: " ++ e.text), w1,
          [Call.putObject client bucketName objectID data size (some e)]⟩
      | (w1, none) =>
        ⟨none, w1, [Call.putObject client bucketName objectID data size none]⟩

/-- What `GetObject` returns (the bytes of the stream, or the error text) and
the calls made. -/
structure GetResult where
  res : Except String (List Nat)
  calls : List Call

/-- Go `(*minioStorageService).GetObject`. -/
def GetObject (s : minioStorageService) (w : Store) (f : GetFaults) (objectID : String) :
    GetResult :=
  match validateObjectID objectID with
  | some err => ⟨.error err, []⟩
  | none =>
    match getNodeForID s objectID with
    | .error (_, err) => ⟨.error err, []⟩
    | .ok (_, client) =>
      match f.get with
      | some e =>
        ⟨.error ("failed to get object: " ++ e.text),
          [Call.getObject client bucketName objectID (some e)]⟩
      | none =>
        match backendStat w f.stat client bucketName objectID with
        | some e =>
          ⟨.error (if e.Code = "NoSuchKey" then "object not found"
              else "failed to stat object: " ++ e.text),
            [Call.getObject client bucketName objectID none,
             Call.stat client bucketName objectID (some e)]⟩
        | none =>
          ⟨.ok ((storeLookup w (client.endpoint, bucketName, objectID)).getD []),
            [Call.getObject client bucketName objectID none,
             Call.stat client bucketName objectID none]⟩

/-! ## `newStorageGeneric` (storage.go) -/

/-- Go `newStorageGeneric`.  `.error m` means `logger.Fatal(m)` ended the
process; `dockerErr` and `discovered` are what `docker.NewClient` and
`DiscoverMinioNodes` answer. -/
def newStorageGeneric (dockerErr : Option String)
    (discovered : Except String (List MinioNode)) (outcomes : Nat → Nat → InitOutcome) :
    Except String minioStorageService :=
  match dockerErr with
  | some _ => .error "Failed to create Docker client: %v"
  | none =>
    match discovered with
    | .error _ => .error "Failed to discover Minio nodes: %v"
    | .ok minioNodes =>
      if minioNodes.length = 0 then .error "No Minio nodes found"
      else .ok (NewminioStorageService minioNodes outcomes).1

/-! ## The handlers (get_handler.go, put_handler.go, middleware.go) -/

/-- The `gin.H` built by `BuildResponse`: the values under the keys
`"status"` and `"message"`. -/
structure H where
  status : String
  message : String
deriving DecidableEq, Repr

/-- Go `BuildResponse`; the third argument is ignored by the code. -/
def BuildResponse (key msg : String) : H := ⟨key, msg⟩

/-- A response body: an object written by `c.JSON`, or raw bytes. -/
inductive Body where
  | json (h : H)
  | raw (bytes : List Nat)
  | rawThenJson (bytes : List Nat) (h : H)
deriving DecidableEq, Repr

/-- The response a handler leaves behind. -/
structure Response where
  status : Nat
  contentType : String
  body : Body
deriving DecidableEq, Repr

/-- Go `c.JSON(code, obj)` on a response nothing was written to. -/
def cJSON (code : Nat) (obj : H) : Response :=
  ⟨code, "application/json; charset=utf-8", Body.json obj⟩

/-- Go `HandleGetObject`, given what `storageService.GetObject(c, objectID)`
returned.  The stream is held in memory, so copying it cannot fail. -/
def HandleGetObject (got : Except String (List Nat)) : Response :=
  match got with
  | .error err =>
    if err = "object ID must contain only alphanumeric characters" ∨
        err = "object ID must be between 1 and 32 characters" then
      cJSON 400 (BuildResponse "error" err)
    else if err = "object not found" then
      cJSON 404 (BuildResponse "error" "Object not found")
    else cJSON 500 (BuildResponse "error" "Failed to retrieve object")
  | .ok bytes => ⟨200, "application/octet-stream", Body.raw bytes⟩

/-- Go `HandlePutObject`: `storage` is `storageService.PutObject`; the result
lists the calls made to it next to the response. -/
def HandlePutObject (storage : String → List Nat → Int → Option String)
    (objectID : String) (body : List Nat) (contentLength : Int) :
    Response × List (String × List Nat × Int) :=
  if contentLength ≤ 0 then
    (cJSON 400 (BuildResponse "error" "Content-Length header is required"), [])
  else
    match storage objectID body contentLength with
    | some err =>
      if err = "object ID must contain only alphanumeric characters" ∨
          err = "object ID must be between 1 and 32 characters" then
        (cJSON 400 (BuildResponse "error" err), [(objectID, body, contentLength)])
      else
        (cJSON 500 (BuildResponse "error" "Failed to store object"),
          [(objectID, body, contentLength)])
    | none =>
      (cJSON 201 (BuildResponse "success" ("Object " ++ objectID ++ " stored successfully")),
        [(objectID, body, contentLength)])

/-- An `io.ReadCloser` as `io.Copy` sees it: reading yields `bytes`, then the
end of the stream when `readErr` is `none`, and the error `readErr` otherwise. -/
structure Stream where
  bytes : List Nat
  readErr : Option String
deriving DecidableEq, Repr

/-- Go `HandleGetObject` with the reading of the returned stream made explicit:
`got` is what `storageService.GetObject(c, objectID)` returned.  When `io.Copy`
fails, `c.JSON` runs on a response whose `Content-Type` is already set; gin keeps
the status 200 once bytes have been written and appends the object to them. -/
def HandleGetObjectStream (got : Except String Stream) : Response :=
  match got with
  | .error err =>
    if err = "object ID must contain only alphanumeric characters" ∨
        err = "object ID must be between 1 and 32 characters" then
      cJSON 400 (BuildResponse "error" err)
    else if err = "object not found" then
      cJSON 404 (BuildResponse "error" "Object not found")
    else cJSON 500 (BuildResponse "error" "Failed to retrieve object")
  | .ok obj =>
    match obj.readErr with
    | none => ⟨200, "application/octet-stream", Body.raw obj.bytes⟩
    | some _ =>
      if obj.bytes = [] then
        ⟨500, "application/octet-stream",
          Body.json (BuildResponse "error" "Failed to send object")⟩
      else
        ⟨200, "application/octet-stream",
          Body.rawThenJson obj.bytes (BuildResponse "error" "Failed to send object")⟩

/-! ## Names used in the statements -/

/-- The node component of what `getNodeForID` returns. -/
def resultNode : Except (MinioNode × String) (MinioNode × Client) → MinioNode
  | .error (node, _) => node
  | .ok (node, _) => node

/-- A sample node. -/
def nodeA : MinioNode := ⟨"ida", "minio-a", "10.0.0.1", "9000", "ak", "sk"⟩

/-- A second sample node. -/
def nodeB : MinioNode := ⟨"idb", "minio-b", "10.0.0.2", "9000", "ak", "sk"⟩

/-- A client handle for `nodeA`. -/
def clientA : Client := ⟨"10.0.0.1:9000", "ak", "sk", 0⟩

/-- A client handle for `nodeB`. -/
def clientB : Client := ⟨"10.0.0.2:9000", "ak", "sk", 1⟩

/-- A registry with two nodes, both with a client. -/
def demoService : minioStorageService :=
  ⟨[nodeA, nodeB], [("idb", clientB), ("ida", clientA)]⟩

/-- A failing initialization: `minio.New` hands out handle `k`, then
`BucketExists` cannot reach the node. -/
def initFails (k : Nat) : InitOutcome :=
  ⟨.ok k, .error "connection refused", none⟩

/-- A successful initialization that allocates handle `k`; the bucket exists. -/
def initSucceeds (k : Nat) : InitOutcome :=
  ⟨.ok k, .ok true, none⟩

/-- Every call fails, for every node. -/
def allFail : Nat → Nat → InitOutcome :=
  fun _ k => initFails k

/-- Every call succeeds, for every node. -/
def allSucceed : Nat → Nat → InitOutcome :=
  fun _ k => initSucceeds k

/-- The first call for a node succeeds, every later one fails. -/
def onlyFirstSucceeds : Nat → Nat → InitOutcome :=
  fun _ k => if k = 0 then initSucceeds k else initFails k

/-- The first five calls for a node fail, the sixth succeeds. -/
def sixthSucceeds : Nat → Nat → InitOutcome :=
  fun _ k => if k < 5 then initFails k else initSucceeds k

/-- The node at position 0 never comes up, the others do at once. -/
def firstNodeDown : Nat → Nat → InitOutcome :=
  fun pos k => if pos = 0 then initFails k else initSucceeds k

/-! ## The service under a sequence of calls -/

/-- One call on the service: the arguments of a `PutObject` or a `GetObject`
call, and the faults the backends show during it. -/
inductive Op where
  | put (fault : Option BackendError) (objectID : String) (data : List Nat) (size : Int)
  | get (f : GetFaults) (objectID : String)

/-- The receiver of the calls and the backends behind it. -/
structure Gateway where
  service : minioStorageService
  store : Store

/-- The state after one call.  Neither method assigns to `s.nodes` or
`s.clients`; `PutObject` changes the backends, `GetObject` only reads. -/
def step (g : Gateway) : Op → Gateway
  | .put fault objectID data size =>
    ⟨g.service, (PutObject g.service g.store fault objectID data size).store⟩
  | .get _ _ => g

/-- The state after a sequence of calls, made one after the other. -/
def run (g : Gateway) (ops : List Op) : Gateway :=
  ops.foldl step g

/-! ## Lemmas on strings and validation -/

theorem utf8Bytes_length_pos (c : Char) : 1 ≤ (utf8Bytes c).length := by
  unfold utf8Bytes
  simp only []
  split_ifs <;> simp

theorem isAlnum_toNat_lt (c : Char) (h : isAlnum c) : c.toNat < 128 := by
  have key : ∀ d : Char, c ≤ d → c.toNat ≤ d.toNat := by
    intro d hd
    exact hd
  rcases h with ⟨_, h⟩ | ⟨_, h⟩ | ⟨_, h⟩
  · have := key _ h
    have e : ('z' : Char).toNat = 122 := rfl
    omega
  · have := key _ h
    have e : ('Z' : Char).toNat = 90 := rfl
    omega
  · have := key _ h
    have e : ('9' : Char).toNat = 57 := rfl
    omega

theorem utf8Bytes_of_isAlnum (c : Char) (h : isAlnum c) : utf8Bytes c = [c.toNat] := by
  have := isAlnum_toNat_lt c h
  unfold utf8Bytes
  simp [this]

theorem flatMap_utf8Bytes_length_ge (cs : List Char) :
    cs.length ≤ (cs.flatMap utf8Bytes).length := by
  induction cs with
  | nil => simp
  | cons c rest ih =>
    have := utf8Bytes_length_pos c
    simp only [List.flatMap_cons, List.length_append, List.length_cons]
    omega

theorem flatMap_utf8Bytes_length_of_isAlnum (cs : List Char) (h : ∀ c ∈ cs, isAlnum c) :
    (cs.flatMap utf8Bytes).length = cs.length := by
  induction cs with
  | nil => simp
  | cons c rest ih =>
    have hc := utf8Bytes_of_isAlnum c (h c (by simp))
    have hr := ih (fun d hd => h d (by simp [hd]))
    simp only [List.flatMap_cons, List.length_append, List.length_cons, hc, hr,
      List.length_nil]
    omega

theorem length_le_len (id : String) : id.length ≤ len id := by
  unfold len goBytes
  exact flatMap_utf8Bytes_length_ge id.data

theorem len_of_isAlnum (id : String) (h : ∀ c ∈ id.data, isAlnum c) : len id = id.length := by
  unfold len goBytes
  exact flatMap_utf8Bytes_length_of_isAlnum id.data h

theorem validateChars_eq_none_iff (cs : List Char) :
    validateChars cs = none ↔ ∀ c ∈ cs, isAlnum c := by
  induction cs with
  | nil => simp [validateChars]
  | cons c rest ih =>
    unfold validateChars
    by_cases hc : isAlnum c
    · simp [hc, ih]
    · simp [hc]

theorem validateObjectID_eq_none_iff (id : String) :
    validateObjectID id = none ↔
      1 ≤ id.length ∧ id.length ≤ 32 ∧ ∀ c ∈ id.data, isAlnum c := by
  unfold validateObjectID
  constructor
  · intro h
    split_ifs at h with hl
    have hall := (validateChars_eq_none_iff id.data).1 h
    have := len_of_isAlnum id hall
    refine ⟨?_, ?_, hall⟩ <;> omega
  · rintro ⟨h1, h2, hall⟩
    have := len_of_isAlnum id hall
    rw [if_neg (by omega)]
    exact (validateChars_eq_none_iff id.data).2 hall

theorem isAlnum_iff_codepoint (c : Char) :
    isAlnum c ↔
      (97 ≤ c.toNat ∧ c.toNat ≤ 122) ∨ (65 ≤ c.toNat ∧ c.toNat ≤ 90) ∨
        (48 ≤ c.toNat ∧ c.toNat ≤ 57) := by
  have e1 : ∀ a b : Char, a ≤ b ↔ a.toNat ≤ b.toNat := fun a b => Iff.rfl
  simp only [isAlnum, e1]
  have a1 : ('a' : Char).toNat = 97 := rfl
  have a2 : ('z' : Char).toNat = 122 := rfl
  have a3 : ('A' : Char).toNat = 65 := rfl
  have a4 : ('Z' : Char).toNat = 90 := rfl
  have a5 : ('0' : Char).toNat = 48 := rfl
  have a6 : ('9' : Char).toNat = 57 := rfl
  rw [a1, a2, a3, a4, a5, a6]

/-! ## Lemmas on routing -/

theorem sum32aWrite_eq_foldl (hash : Nat) (data : List Nat) :
    sum32aWrite hash data =
      List.foldl (fun h b => ((h ^^^ b) * 16777619) % 2 ^ 32) hash data := by
  induction data generalizing hash with
  | nil => rfl
  | cons c rest ih =>
    simp only [sum32aWrite, List.foldl_cons, ih, prime32]

theorem sum32aWrite_lt (hash : Nat) (data : List Nat) (h : hash < 2 ^ 32) :
    sum32aWrite hash data < 2 ^ 32 := by
  induction data generalizing hash with
  | nil => simpa [sum32aWrite] using h
  | cons c rest ih =>
    simp only [sum32aWrite]
    exact ih _ (Nat.mod_lt _ (by norm_num))

theorem fnv32a_lt (data : List Nat) : fnv32a data < 2 ^ 32 := by
  unfold fnv32a
  exact sum32aWrite_lt _ _ (by norm_num [offset32])

theorem uint32ToInt_of_lt (u : Nat) (h : u < 2 ^ 32) : uint32ToInt u = (u : Int) := by
  unfold uint32ToInt
  have h1 : u % 2 ^ 64 = u := Nat.mod_eq_of_lt (by omega)
  simp only [h1]
  rw [if_pos (by omega)]

theorem nodeIndex_eq (s : minioStorageService) (objectID : String) :
    nodeIndex s objectID = ((fnv32a (goBytes objectID) % s.nodes.length : Nat) : Int) := by
  unfold nodeIndex
  rw [uint32ToInt_of_lt _ (fnv32a_lt _)]
  exact (Int.ofNat_tmod _ _).symm

theorem getNodeForID_of_nodes (s : minioStorageService) (objectID : String)
    (h : s.nodes ≠ []) :
    ∃ node, s.nodes[fnv32a (goBytes objectID) % s.nodes.length]? = some node ∧
      getNodeForID s objectID =
        match mapLookup s.clients node.ID with
        | none => .error (node, "client for node " ++ node.Name ++ " not initialized")
        | some client => .ok (node, client) := by
  have hpos : 0 < s.nodes.length := List.length_pos.2 h
  have hlt : fnv32a (goBytes objectID) % s.nodes.length < s.nodes.length := Nat.mod_lt _ hpos
  refine ⟨s.nodes[fnv32a (goBytes objectID) % s.nodes.length], List.getElem?_eq_getElem hlt, ?_⟩
  unfold getNodeForID
  rw [if_neg (by omega), nodeIndex_eq]
  have hnn : ¬ (((fnv32a (goBytes objectID) % s.nodes.length : Nat) : Int) < 0) := by omega
  simp only [hnn, if_false, Int.toNat_ofNat, List.getD_eq_getElem?_getD,
    List.getElem?_eq_getElem hlt, Option.getD_some]

theorem getNodeForID_of_nil (s : minioStorageService) (objectID : String) (h : s.nodes = []) :
    getNodeForID s objectID = .error (MinioNode.zero, "no storage nodes available") := by
  unfold getNodeForID
  simp [h]

theorem string_ne_of_head (a b : String) (c d : Char) (ta tb : List Char)
    (ha : a.data = c :: ta) (hb : b.data = d :: tb) (hcd : c ≠ d) : a ≠ b := by
  intro hab
  rw [hab, hb] at ha
  exact hcd (List.cons.inj ha).1.symm

theorem notInitialized_ne_noNodes (name : String) :
    "client for node " ++ name ++ " not initialized" ≠ "no storage nodes available" := by
  apply string_ne_of_head _ _ 'c' 'n' ("lient for node ".data ++ name.data ++
    " not initialized".data) "o storage nodes available".data
  · simp only [String.data_append]
    rfl
  · rfl
  · decide

theorem getNodeForID_error_text (s : minioStorageService) (objectID : String)
    (node : MinioNode) (msg : String) (h : getNodeForID s objectID = .error (node, msg)) :
    msg = "no storage nodes available" ∨
      msg = "client for node " ++ node.Name ++ " not initialized" := by
  by_cases hn : s.nodes = []
  · rw [getNodeForID_of_nil s objectID hn] at h
    injection h with h
    exact Or.inl (Prod.mk.inj h).2.symm
  · obtain ⟨n, _, hget⟩ := getNodeForID_of_nodes s objectID hn
    rw [hget] at h
    cases hl : mapLookup s.clients n.ID with
    | none =>
      rw [hl] at h
      injection h with h
      obtain ⟨h1, h2⟩ := Prod.mk.inj h
      exact Or.inr (by rw [← h2, h1])
    | some c =>
      rw [hl] at h
      cases h

/-! ## Lemmas on the registry -/

theorem mapLookup_filter_ne (m : ClientMap) (k key : String) (h : key ≠ k) :
    mapLookup (m.filter (fun kv => kv.1 ≠ k)) key = mapLookup m key := by
  induction m with
  | nil => rfl
  | cons kv rest ih =>
    obtain ⟨k1, v1⟩ := kv
    by_cases h1 : k1 = k
    · subst h1
      have hk : ¬ k1 = key := fun e => h e.symm
      have ih2 := ih
      simp only [ne_eq, decide_not] at ih2
      simp [List.filter_cons, mapLookup, ih2, hk]
    · simp only [List.filter_cons, h1, ne_eq, not_false_eq_true, decide_True, if_true,
        mapLookup, ih]

theorem mapLookup_mapInsert (m : ClientMap) (k : String) (c : Client) (key : String) :
    mapLookup (mapInsert m k c) key = if k = key then some c else mapLookup m key := by
  unfold mapInsert
  by_cases h : k = key
  · simp [mapLookup, h]
  · have h2 : key ≠ k := fun e => h e.symm
    simp only [mapLookup, h, if_false]
    exact mapLookup_filter_ne m k key h2

theorem initializeClient_cases (s : minioStorageService) (node : MinioNode) (o : InitOutcome) :
    ((initializeClient s node o).2 = none ∧
      (initializeClient s node o).1.nodes = s.nodes ∧
      ∃ c, (initializeClient s node o).1.clients = mapInsert s.clients node.ID c) ∨
    ((initializeClient s node o).2 ≠ none ∧ (initializeClient s node o).1 = s) := by
  unfold initializeClient
  cases o.newClient with
  | error err => exact Or.inr ⟨by simp, rfl⟩
  | ok serial =>
    cases o.bucketExists with
    | error err => exact Or.inr ⟨by simp, rfl⟩
    | ok found =>
      simp only []
      cases (if ¬ found = true then o.makeBucket else none) with
      | some err => exact Or.inr ⟨by simp, rfl⟩
      | none => exact Or.inl ⟨rfl, rfl, _, rfl⟩

theorem lookup_after_initializeClient (s : minioStorageService) (node : MinioNode)
    (o : InitOutcome) (key : String) :
    (initializeClient s node o).1.nodes = s.nodes ∧
    (mapLookup (initializeClient s node o).1.clients key ≠ none ↔
      (mapLookup s.clients key ≠ none ∨
        (key = node.ID ∧ (initializeClient s node o).2 = none))) := by
  rcases initializeClient_cases s node o with ⟨h1, h2, c, h3⟩ | ⟨h1, h2⟩
  · refine ⟨h2, ?_⟩
    rw [h3, mapLookup_mapInsert, h1]
    by_cases hk : node.ID = key
    · simp [hk]
    · have : ¬ key = node.ID := fun e => hk e.symm
      simp [hk, this]
  · rw [h2]
    refine ⟨rfl, ?_⟩
    constructor
    · exact fun h => Or.inl h
    · rintro (h | ⟨_, h⟩)
      · exact h
      · exact absurd h h1

theorem retryLoop_spec (node : MinioNode) (outcome : Nat → InitOutcome) (fuel : Nat) :
    ∀ (i : Nat) (s : minioStorageService),
      (retryLoop node outcome fuel i s).1.nodes = s.nodes ∧
      (retryLoop node outcome fuel i s).2.length ≤ fuel ∧
      ((∀ e ∈ (retryLoop node outcome fuel i s).2, e ≠ none) →
        (retryLoop node outcome fuel i s).2.length = fuel) ∧
      ∀ key, (mapLookup (retryLoop node outcome fuel i s).1.clients key ≠ none ↔
        (mapLookup s.clients key ≠ none ∨
          (key = node.ID ∧ none ∈ (retryLoop node outcome fuel i s).2))) := by
  induction fuel with
  | zero =>
    intro i s
    simp [retryLoop]
  | succ fuel ih =>
    intro i s
    have hinit := fun key => lookup_after_initializeClient s node (outcome i) key
    unfold retryLoop
    cases hc : initializeClient s node (outcome i) with
    | mk s1 e =>
      rw [hc] at hinit
      cases e with
      | none =>
        simp only [List.length_singleton, List.mem_singleton, ne_eq, forall_eq,
          not_true_eq_false, false_implies, true_and]
        refine ⟨(hinit "").1, by omega, ?_⟩
        intro key
        have hk := (hinit key).2
        simpa using hk
      | some err =>
        obtain ⟨r1, r2, r3, r4⟩ := ih (i + 1) s1
        simp only [List.length_cons, List.mem_cons]
        refine ⟨r1.trans (hinit "").1, by omega, ?_, ?_⟩
        · intro hall
          have := r3 (fun e he => hall e (Or.inr he))
          omega
        · intro key
          have hk := (hinit key).2
          simp only [ne_eq, reduceCtorEq, and_false, or_false] at hk
          rw [r4 key]
          simp only [ne_eq, hk, reduceCtorEq, false_or]

theorem initNode_spec (s : minioStorageService) (node : MinioNode)
    (outcome : Nat → InitOutcome) :
    (initNode s node outcome).1.nodes = s.nodes ∧
    1 ≤ (initNode s node outcome).2.length ∧
    (initNode s node outcome).2.length ≤ 6 ∧
    ((∀ e ∈ (initNode s node outcome).2, e ≠ none) →
      (initNode s node outcome).2.length = 6) ∧
    ∀ key, (mapLookup (initNode s node outcome).1.clients key ≠ none ↔
      (mapLookup s.clients key ≠ none ∨
        (key = node.ID ∧ none ∈ (initNode s node outcome).2))) := by
  obtain ⟨r1, r2, r3, r4⟩ := retryLoop_spec node outcome 5 0 s
  have hinit := fun key => lookup_after_initializeClient (retryLoop node outcome 5 0 s).1 node
    (outcome (retryLoop node outcome 5 0 s).2.length) key
  unfold initNode
  simp only [List.length_append, List.length_singleton, List.mem_append, List.mem_singleton]
  refine ⟨(hinit "").1.trans r1, by omega, by omega, ?_, ?_⟩
  · intro hall
    have := r3 (fun e he => hall e (Or.inl he))
    omega
  · intro key
    rw [(hinit key).2, r4 key]
    constructor
    · rintro ((h | ⟨h1, h2⟩) | ⟨h1, h2⟩)
      · exact Or.inl h
      · exact Or.inr ⟨h1, Or.inl h2⟩
      · exact Or.inr ⟨h1, Or.inr h2.symm⟩
    · rintro (h | ⟨h1, h2 | h2⟩)
      · exact Or.inl (Or.inl h)
      · exact Or.inl (Or.inr ⟨h1, h2⟩)
      · exact Or.inr ⟨h1, h2.symm⟩

theorem initNodes_spec (outcomes : Nat → Nat → InitOutcome) (l : List MinioNode) :
    ∀ (pos : Nat) (s : minioStorageService),
      (initNodes outcomes l pos s).1.nodes = s.nodes ∧
      (initNodes outcomes l pos s).2.length = l.length ∧
      (∀ log ∈ (initNodes outcomes l pos s).2,
        1 ≤ log.length ∧ log.length ≤ 6 ∧ ((∀ e ∈ log, e ≠ none) → log.length = 6)) ∧
      ∀ key, (mapLookup (initNodes outcomes l pos s).1.clients key ≠ none ↔
        (mapLookup s.clients key ≠ none ∨
          ∃ (j : Nat) (node : MinioNode) (log : List (Option String)),
            l[j]? = some node ∧ (initNodes outcomes l pos s).2[j]? = some log ∧
              node.ID = key ∧ none ∈ log)) := by
  induction l with
  | nil =>
    intro pos s
    simp [initNodes]
  | cons node rest ih =>
    intro pos s
    obtain ⟨n1, n2, n3, n4, n5⟩ := initNode_spec s node (outcomes pos)
    obtain ⟨r1, r2, r3, r4⟩ := ih (pos + 1) (initNode s node (outcomes pos)).1
    unfold initNodes
    simp only [List.length_cons, List.mem_cons]
    refine ⟨r1.trans n1, by omega, ?_, ?_⟩
    · rintro log (h | h)
      · rw [h]
        exact ⟨n2, n3, n4⟩
      · exact r3 log h
    · intro key
      rw [r4 key, n5 key]
      constructor
      · rintro ((h | ⟨h1, h2⟩) | ⟨j, nd, lg, h1, h2, h3, h4⟩)
        · exact Or.inl h
        · exact Or.inr ⟨0, node, _, List.getElem?_cons_zero, List.getElem?_cons_zero,
            h1.symm, h2⟩
        · exact Or.inr ⟨j + 1, nd, lg, by simpa using h1, by simpa using h2, h3, h4⟩
      · rintro (h | ⟨j, nd, lg, h1, h2, h3, h4⟩)
        · exact Or.inl (Or.inl h)
        · cases j with
          | zero =>
            simp only [List.getElem?_cons_zero, Option.some.injEq] at h1 h2
            subst h1
            subst h2
            exact Or.inl (Or.inr ⟨h3.symm, h4⟩)
          | succ j =>
            simp only [List.getElem?_cons_succ] at h1 h2
            exact Or.inr ⟨j, nd, lg, h1, h2, h3, h4⟩

theorem index_unique_of_nodup_ID (nodes : List MinioNode)
    (hd : (nodes.map (fun n => n.ID)).Nodup) (i j : Nat) (a b : MinioNode)
    (hi : nodes[i]? = some a) (hj : nodes[j]? = some b) (hab : a.ID = b.ID) : i = j := by
  obtain ⟨hi1, hi2⟩ := List.getElem?_eq_some.1 hi
  obtain ⟨hj1, hj2⟩ := List.getElem?_eq_some.1 hj
  have hi3 : i < (nodes.map (fun n => n.ID)).length := by simpa using hi1
  have hj3 : j < (nodes.map (fun n => n.ID)).length := by simpa using hj1
  have key := (@List.Nodup.getElem_inj_iff _ _ hd i hi3 j hj3).1
  apply key
  simp only [List.getElem_map, hi2, hj2, hab]

theorem mapLookup_ne_none_of_mem (m : ClientMap) (kv : String × Client) (h : kv ∈ m) :
    mapLookup m kv.1 ≠ none := by
  induction m with
  | nil => simp at h
  | cons hd rest ih =>
    obtain ⟨k, v⟩ := hd
    unfold mapLookup
    by_cases hk : k = kv.1
    · simp [hk]
    · rw [if_neg hk]
      rcases List.mem_cons.1 h with h1 | h1
      · exact absurd (by rw [h1]) hk
      · exact ih h1

theorem run_service (ops : List Op) : ∀ g : Gateway, (run g ops).service = g.service := by
  induction ops with
  | nil => intro g; rfl
  | cons op rest ih =>
    intro g
    have h : run g (op :: rest) = run (step g op) rest := rfl
    rw [h, ih]
    cases op <;> rfl

theorem clients_keys_after_construction (nodes : List MinioNode)
    (outcomes : Nat → Nat → InitOutcome) (kv : String × Client)
    (h : kv ∈ (NewminioStorageService nodes outcomes).1.clients) :
    ∃ node ∈ nodes, node.ID = kv.1 := by
  obtain ⟨_, _, _, s4⟩ := initNodes_spec outcomes nodes 0 { nodes := nodes, clients := [] }
  have hne := mapLookup_ne_none_of_mem _ kv h
  rcases (s4 kv.1).1 hne with h0 | ⟨j, node, log, h1, _, h3, _⟩
  · exact absurd rfl h0
  · exact ⟨node, List.getElem?_mem h1, h3⟩

/-! ## Lemmas on the handlers -/

theorem HandleGetObject_eq_stream (got : Except String (List Nat)) :
    HandleGetObject got =
      HandleGetObjectStream (match got with
        | .error err => .error err
        | .ok bytes => .ok ⟨bytes, none⟩) := by
  cases got <;> rfl

/-! ## Lemmas on error texts -/

theorem append_ne_of_head (p t b : String) (c d : Char) (tp tb : List Char)
    (hp : p.data = c :: tp) (hb : b.data = d :: tb) (hcd : c ≠ d) : p ++ t ≠ b := by
  apply string_ne_of_head _ _ c d (tp ++ t.data) tb _ hb hcd
  rw [String.data_append, hp]
  rfl

theorem notInitialized_ne (name b : String) (d : Char) (tb : List Char)
    (hb : b.data = d :: tb) (hd : 'c' ≠ d) :
    "client for node " ++ name ++ " not initialized" ≠ b := by
  apply string_ne_of_head _ _ 'c' d ("lient for node ".data ++ name.data ++
    " not initialized".data) tb _ hb hd
  simp only [String.data_append]
  rfl

/-- The error texts of `GetObject` that are not classified by the handler. -/
theorem other_errors_distinct :
    (∀ b : String, b = "object not found" ∨
        b = "object ID must contain only alphanumeric characters" ∨
        b = "object ID must be between 1 and 32 characters" →
      "no storage nodes available" ≠ b ∧
      (∀ name : String, "client for node " ++ name ++ " not initialized" ≠ b) ∧
      (∀ t : String, "failed to get object: " ++ t ≠ b) ∧
      (∀ t : String, "failed to stat object: " ++ t ≠ b) ∧
      (∀ t : String, "failed to store object: " ++ t ≠ b)) := by
  intro b hb
  rcases hb with rfl | rfl | rfl
  · exact ⟨by decide, fun name => notInitialized_ne name _ 'o' _ rfl (by decide),
      fun t => append_ne_of_head _ t _ 'f' 'o' _ _ rfl rfl (by decide),
      fun t => append_ne_of_head _ t _ 'f' 'o' _ _ rfl rfl (by decide),
      fun t => append_ne_of_head _ t _ 'f' 'o' _ _ rfl rfl (by decide)⟩
  · exact ⟨by decide, fun name => notInitialized_ne name _ 'o' _ rfl (by decide),
      fun t => append_ne_of_head _ t _ 'f' 'o' _ _ rfl rfl (by decide),
      fun t => append_ne_of_head _ t _ 'f' 'o' _ _ rfl rfl (by decide),
      fun t => append_ne_of_head _ t _ 'f' 'o' _ _ rfl rfl (by decide)⟩
  · exact ⟨by decide, fun name => notInitialized_ne name _ 'o' _ rfl (by decide),
      fun t => append_ne_of_head _ t _ 'f' 'o' _ _ rfl rfl (by decide),
      fun t => append_ne_of_head _ t _ 'f' 'o' _ _ rfl rfl (by decide),
      fun t => append_ne_of_head _ t _ 'f' 'o' _ _ rfl rfl (by decide)⟩

/-! ## Claims -/

/-- C1: `validateObjectID` returns nil exactly for the strings of 1 to 32
characters that are all ASCII letters or digits (code points 97..122, 65..90,
48..57); the empty string, every string of more than 32 characters and
`"abc!"` are rejected, `"Ab12"` is accepted. -/
theorem C1_validateObjectID_nil_iff :
    (∀ id : String, validateObjectID id = none ↔
      (1 ≤ id.length ∧ id.length ≤ 32 ∧
        ∀ c ∈ id.data, (97 ≤ c.toNat ∧ c.toNat ≤ 122) ∨ (65 ≤ c.toNat ∧ c.toNat ≤ 90) ∨
          (48 ≤ c.toNat ∧ c.toNat ≤ 57))) ∧
    validateObjectID "" ≠ none ∧
    (∀ id : String, 32 < id.length → validateObjectID id ≠ none) ∧
    validateObjectID "abc!" ≠ none ∧
    validateObjectID "Ab12" = none := by
  have main : ∀ id : String, validateObjectID id = none ↔
      (1 ≤ id.length ∧ id.length ≤ 32 ∧
        ∀ c ∈ id.data, (97 ≤ c.toNat ∧ c.toNat ≤ 122) ∨ (65 ≤ c.toNat ∧ c.toNat ≤ 90) ∨
          (48 ≤ c.toNat ∧ c.toNat ≤ 57)) := by
    intro id
    rw [validateObjectID_eq_none_iff]
    simp only [isAlnum_iff_codepoint]
  refine ⟨main, by decide, ?_, by decide, by decide⟩
  intro id hlen h
  have := ((main id).1 h).2.1
  omega

/-- C2: for a non-empty node list, `getNodeForID` returns the node at index
`h mod len(nodes)`, where `h` is the 32-bit FNV-1a hash of the identifier's bytes
(offset basis 2166136261, prime 16777619, xor then multiply modulo 2^32) and the
conversion to `int` keeps its value; the index lies in `[0, len(nodes))`, and the
node is the same whatever the clients map contains. -/
theorem C2_getNodeForID_routes (s : minioStorageService) (objectID : String)
    (h : s.nodes ≠ []) :
    ∃ node,
      s.nodes[(List.foldl (fun h b => ((h ^^^ b) * 16777619) % 2 ^ 32) 2166136261
        (goBytes objectID)) % s.nodes.length]? = some node ∧
      resultNode (getNodeForID s objectID) = node ∧
      List.foldl (fun h b => ((h ^^^ b) * 16777619) % 2 ^ 32) 2166136261
        (goBytes objectID) < 2 ^ 32 ∧
      uint32ToInt (fnv32a (goBytes objectID)) =
        ((List.foldl (fun h b => ((h ^^^ b) * 16777619) % 2 ^ 32) 2166136261
          (goBytes objectID) : Nat) : Int) ∧
      nodeIndex s objectID =
        (((List.foldl (fun h b => ((h ^^^ b) * 16777619) % 2 ^ 32) 2166136261
          (goBytes objectID)) % s.nodes.length : Nat) : Int) ∧
      0 ≤ nodeIndex s objectID ∧ nodeIndex s objectID < (s.nodes.length : Int) ∧
      ∀ clients : ClientMap,
        resultNode (getNodeForID { s with clients := clients } objectID) = node := by
  have hf : List.foldl (fun h b => ((h ^^^ b) * 16777619) % 2 ^ 32) 2166136261
      (goBytes objectID) = fnv32a (goBytes objectID) := by
    rw [fnv32a, sum32aWrite_eq_foldl, offset32]
  rw [hf]
  obtain ⟨node, hnode, hget⟩ := getNodeForID_of_nodes s objectID h
  have hpos : 0 < s.nodes.length := List.length_pos.2 h
  have hlt : fnv32a (goBytes objectID) % s.nodes.length < s.nodes.length := Nat.mod_lt _ hpos
  refine ⟨node, hnode, ?_, fnv32a_lt _, uint32ToInt_of_lt _ (fnv32a_lt _), nodeIndex_eq s objectID,
    ?_, ?_, ?_⟩
  · rw [hget]
    cases mapLookup s.clients node.ID <;> rfl
  · rw [nodeIndex_eq]
    omega
  · rw [nodeIndex_eq]
    omega
  · intro clients
    obtain ⟨node2, hnode2, hget2⟩ :=
      getNodeForID_of_nodes { s with clients := clients } objectID h
    have : node2 = node := by
      have h2 : s.nodes[fnv32a (goBytes objectID) % s.nodes.length]? = some node2 := hnode2
      rw [hnode] at h2
      exact (Option.some.inj h2).symm
    rw [hget2, this]
    cases mapLookup clients node.ID <;> rfl

/-- Witness for C2: the identifier `"a"` on the two-node sample registry. -/
theorem C2_getNodeForID_routes_witness :
    demoService.nodes ≠ [] ∧
    ∃ node,
      demoService.nodes[(List.foldl (fun h b => ((h ^^^ b) * 16777619) % 2 ^ 32) 2166136261
        (goBytes "a")) % demoService.nodes.length]? = some node ∧
      resultNode (getNodeForID demoService "a") = node ∧
      List.foldl (fun h b => ((h ^^^ b) * 16777619) % 2 ^ 32) 2166136261
        (goBytes "a") < 2 ^ 32 ∧
      uint32ToInt (fnv32a (goBytes "a")) =
        ((List.foldl (fun h b => ((h ^^^ b) * 16777619) % 2 ^ 32) 2166136261
          (goBytes "a") : Nat) : Int) ∧
      nodeIndex demoService "a" =
        (((List.foldl (fun h b => ((h ^^^ b) * 16777619) % 2 ^ 32) 2166136261
          (goBytes "a")) % demoService.nodes.length : Nat) : Int) ∧
      0 ≤ nodeIndex demoService "a" ∧
      nodeIndex demoService "a" < (demoService.nodes.length : Int) ∧
      ∀ clients : ClientMap,
        resultNode (getNodeForID { demoService with clients := clients } "a") = node :=
  ⟨by decide, C2_getNodeForID_routes demoService "a" (by decide)⟩

/-- C3: with the backends modelled as a map from (endpoint, bucket, key) to
bytes, for a valid identifier whose selected node has a client handle, once
`PutObject(id, b, len(b))` has succeeded, a fault-free `GetObject(id)` on the same
registry succeeds with exactly `b`, read from bucket `"objects"` under key `id`
through the client of the node `getNodeForID(id)` selects. -/
theorem C3_put_then_get (s : minioStorageService) (w : Store) (fault : Option BackendError)
    (objectID : String) (b : List Nat) (node : MinioNode) (client : Client)
    (hv : validateObjectID objectID = none)
    (hc : getNodeForID s objectID = .ok (node, client))
    (hput : (PutObject s w fault objectID b (b.length : Int)).err = none) :
    (GetObject s (PutObject s w fault objectID b (b.length : Int)).store GetFaults.none
        objectID).res = .ok b ∧
    (GetObject s (PutObject s w fault objectID b (b.length : Int)).store GetFaults.none
        objectID).calls =
      [Call.getObject client "objects" objectID none,
       Call.stat client "objects" objectID none] ∧
    (PutObject s w fault objectID b (b.length : Int)).calls =
      [Call.putObject client "objects" objectID b (b.length : Int) none] ∧
    storeLookup (PutObject s w fault objectID b (b.length : Int)).store
      (client.endpoint, "objects", objectID) = some b := by
  have hcond : (0 : Int) ≤ (b.length : Int) ∧ ((b.length : Int)).toNat ≤ b.length := by
    constructor
    · omega
    · simp
  cases fault with
  | some e =>
    simp [PutObject, hv, hc, backendPut] at hput
  | none =>
    have hP : PutObject s w none objectID b (b.length : Int) =
        ⟨none, ((client.endpoint, bucketName, objectID), b) :: w,
          [Call.putObject client bucketName objectID b (b.length : Int) none]⟩ := by
      simp [PutObject, hv, hc, backendPut]
    rw [hP]
    simp [GetObject, hv, hc, GetFaults.none, backendStat, storeLookup, bucketName]

/-- Witness for C3: storing three bytes under `"k1"` on the sample registry. -/
theorem C3_put_then_get_witness :
    validateObjectID "k1" = none ∧
    getNodeForID demoService "k1" = .ok (nodeB, clientB) ∧
    (PutObject demoService [] none "k1" [1, 2, 3] (([1, 2, 3] : List Nat).length : Int)).err
      = none ∧
    (GetObject demoService
        (PutObject demoService [] none "k1" [1, 2, 3]
          (([1, 2, 3] : List Nat).length : Int)).store GetFaults.none "k1").res
      = .ok [1, 2, 3] :=
  ⟨by decide, by rfl, by decide,
    (C3_put_then_get demoService [] none "k1" [1, 2, 3] nodeB clientB (by decide) (by rfl)
      (by decide)).1⟩

/-- C4: for a valid identifier, `GetObject` returns the error `"object not found"`
exactly when the backend `Stat` call fails with code `"NoSuchKey"`; every other
error it returns is the no-nodes error, a client-not-initialized error, a wrapped
get failure or a wrapped stat failure, and differs from `"object not found"` and
from both validation messages, so `HandleGetObject` answers 404 only for a missing
object and never 400. -/
theorem C4_not_found_iff (s : minioStorageService) (w : Store) (f : GetFaults)
    (objectID : String) (hv : validateObjectID objectID = none) :
    ((GetObject s w f objectID).res = .error "object not found" ↔
      ∃ client bucket key e,
        Call.stat client bucket key (some e) ∈ (GetObject s w f objectID).calls ∧
          e.Code = "NoSuchKey") ∧
    (∀ err, (GetObject s w f objectID).res = .error err → err ≠ "object not found" →
      (err = "no storage nodes available" ∨
        (∃ name : String, err = "client for node " ++ name ++ " not initialized") ∨
        (∃ t : String, err = "failed to get object: " ++ t) ∨
        (∃ t : String, err = "failed to stat object: " ++ t)) ∧
      err ≠ "object ID must contain only alphanumeric characters" ∧
      err ≠ "object ID must be between 1 and 32 characters") ∧
    ((HandleGetObject (GetObject s w f objectID).res).status = 404 ↔
      (GetObject s w f objectID).res = .error "object not found") ∧
    (HandleGetObject (GetObject s w f objectID).res).status ≠ 400 := by
  have hd1 := other_errors_distinct "object not found" (Or.inl rfl)
  have hd2 := other_errors_distinct "object ID must contain only alphanumeric characters"
    (Or.inr (Or.inl rfl))
  have hd3 := other_errors_distinct "object ID must be between 1 and 32 characters"
    (Or.inr (Or.inr rfl))
  -- the shape of every result of `GetObject` on a valid identifier
  have shape :
      ((GetObject s w f objectID).res = .error "no storage nodes available" ∧
        (GetObject s w f objectID).calls = []) ∨
      (∃ name : String, (GetObject s w f objectID).res =
          .error ("client for node " ++ name ++ " not initialized") ∧
        (GetObject s w f objectID).calls = []) ∨
      (∃ client e, (GetObject s w f objectID).res =
          .error ("failed to get object: " ++ e.text) ∧
        (GetObject s w f objectID).calls =
          [Call.getObject client bucketName objectID (some e)]) ∨
      (∃ client e, e.Code = "NoSuchKey" ∧
        (GetObject s w f objectID).res = .error "object not found" ∧
        (GetObject s w f objectID).calls =
          [Call.getObject client bucketName objectID none,
           Call.stat client bucketName objectID (some e)]) ∨
      (∃ client e, e.Code ≠ "NoSuchKey" ∧
        (GetObject s w f objectID).res = .error ("failed to stat object: " ++ e.text) ∧
        (GetObject s w f objectID).calls =
          [Call.getObject client bucketName objectID none,
           Call.stat client bucketName objectID (some e)]) ∨
      (∃ client bytes, (GetObject s w f objectID).res = .ok bytes ∧
        (GetObject s w f objectID).calls =
          [Call.getObject client bucketName objectID none,
           Call.stat client bucketName objectID none]) := by
    cases hg : getNodeForID s objectID with
    | error e =>
      obtain ⟨node, msg⟩ := e
      rcases getNodeForID_error_text s objectID node msg hg with h | h
      · exact Or.inl (by simp [GetObject, hv, hg, h])
      · exact Or.inr (Or.inl ⟨node.Name, by simp [GetObject, hv, hg, h]⟩)
    | ok r =>
      obtain ⟨node, client⟩ := r
      cases hfg : f.get with
      | some e =>
        exact Or.inr (Or.inr (Or.inl ⟨client, e, by simp [GetObject, hv, hg, hfg]⟩))
      | none =>
        cases hst : backendStat w f.stat client bucketName objectID with
        | some e =>
          by_cases hcode : e.Code = "NoSuchKey"
          · exact Or.inr (Or.inr (Or.inr (Or.inl
              ⟨client, e, hcode, by simp [GetObject, hv, hg, hfg, hst, hcode]⟩)))
          · exact Or.inr (Or.inr (Or.inr (Or.inr (Or.inl
              ⟨client, e, hcode, by simp [GetObject, hv, hg, hfg, hst, hcode]⟩))))
        | none =>
          exact Or.inr (Or.inr (Or.inr (Or.inr (Or.inr
            ⟨client, (storeLookup w (client.endpoint, bucketName, objectID)).getD [],
              by simp [GetObject, hv, hg, hfg, hst]⟩))))
  have hinj : ∀ a b : String, (Except.error a : Except String (List Nat)) = .error b → a = b :=
    fun a b h => by injection h
  rcases shape with ⟨hr, hcalls⟩ | ⟨name, hr, hcalls⟩ | ⟨client, e, hr, hcalls⟩ |
    ⟨client, e, hcode, hr, hcalls⟩ | ⟨client, e, hcode, hr, hcalls⟩ | ⟨client, bytes, hr, hcalls⟩
  · rw [hr, hcalls]
    refine ⟨⟨fun h => absurd (hinj _ _ h) hd1.1, by simp⟩, ?_, ?_, ?_⟩
    · intro err he _
      have := hinj _ _ he
      subst this
      exact ⟨Or.inl rfl, hd2.1, hd3.1⟩
    · simp [HandleGetObject, cJSON]
    · simp [HandleGetObject, cJSON]
  · rw [hr, hcalls]
    have n1 := hd1.2.1 name
    have n2 := hd2.2.1 name
    have n3 := hd3.2.1 name
    refine ⟨⟨fun h => absurd (hinj _ _ h) n1, by simp⟩, ?_, ?_, ?_⟩
    · intro err he _
      have := hinj _ _ he
      subst this
      exact ⟨Or.inr (Or.inl ⟨name, rfl⟩), n2, n3⟩
    · simp [HandleGetObject, cJSON, n1, n2, n3]
    · simp [HandleGetObject, cJSON, n1, n2, n3]
  · rw [hr, hcalls]
    have n1 := hd1.2.2.1 e.text
    have n2 := hd2.2.2.1 e.text
    have n3 := hd3.2.2.1 e.text
    refine ⟨⟨fun h => absurd (hinj _ _ h) n1, by simp⟩, ?_, ?_, ?_⟩
    · intro err he _
      have := hinj _ _ he
      subst this
      exact ⟨Or.inr (Or.inr (Or.inl ⟨e.text, rfl⟩)), n2, n3⟩
    · simp [HandleGetObject, cJSON, n1, n2, n3]
    · simp [HandleGetObject, cJSON, n1, n2, n3]
  · rw [hr, hcalls]
    refine ⟨⟨fun _ => ⟨client, bucketName, objectID, e, by simp, hcode⟩, fun _ => rfl⟩,
      ?_, ?_, ?_⟩
    · intro err he hne
      exact absurd (hinj _ _ he).symm hne
    · simp [HandleGetObject, cJSON]
    · simp [HandleGetObject, cJSON]
  · rw [hr, hcalls]
    have n1 := hd1.2.2.2.1 e.text
    have n2 := hd2.2.2.2.1 e.text
    have n3 := hd3.2.2.2.1 e.text
    refine ⟨⟨fun h => absurd (hinj _ _ h) n1, ?_⟩, ?_, ?_, ?_⟩
    · rintro ⟨c, bk, k, e2, hmem, hc2⟩
      simp only [List.mem_cons, List.mem_singleton, Call.stat.injEq, Option.some.injEq,
        List.mem_nil_iff, or_false, false_or, reduceCtorEq] at hmem
      rw [hmem.2.2.2] at hc2
      exact absurd hc2 hcode
    · intro err he _
      have := hinj _ _ he
      subst this
      exact ⟨Or.inr (Or.inr (Or.inr ⟨e.text, rfl⟩)), n2, n3⟩
    · simp [HandleGetObject, cJSON, n1, n2, n3]
    · simp [HandleGetObject, cJSON, n1, n2, n3]
  · rw [hr, hcalls]
    refine ⟨⟨fun h => (by cases h), ?_⟩, ?_, ?_, ?_⟩
    · rintro ⟨c, bk, k, e2, hmem, _⟩
      simp at hmem
    · intro err he _
      cases he
    · simp [HandleGetObject]
    · simp [HandleGetObject]

/-- Witness for C4: a valid identifier that was never written. -/
theorem C4_not_found_iff_witness :
    validateObjectID "neverwritten" = none ∧
    ((GetObject demoService [] GetFaults.none "neverwritten").res = .error "object not found" ↔
      ∃ client bucket key e,
        Call.stat client bucket key (some e) ∈
            (GetObject demoService [] GetFaults.none "neverwritten").calls ∧
          e.Code = "NoSuchKey") ∧
    (GetObject demoService [] GetFaults.none "neverwritten").res = .error "object not found" :=
  ⟨by decide, (C4_not_found_iff demoService [] GetFaults.none "neverwritten" (by decide)).1,
    by rfl⟩

/-- C5: `getNodeForID` returns an error exactly when the node list is empty or
the ID of the selected node is not a key of clients; the first error is
`"no storage nodes available"`, the second is
`"client for node <Name> not initialized"`, the two differ for every node name,
and otherwise the selected node is returned with the client stored under its ID. -/
theorem C5_getNodeForID_errors (s : minioStorageService) (objectID : String) :
    ((∃ e, getNodeForID s objectID = .error e) ↔
      (s.nodes = [] ∨
        ∃ node, s.nodes[fnv32a (goBytes objectID) % s.nodes.length]? = some node ∧
          mapLookup s.clients node.ID = none)) ∧
    (s.nodes = [] →
      getNodeForID s objectID = .error (MinioNode.zero, "no storage nodes available")) ∧
    (∀ node, s.nodes[fnv32a (goBytes objectID) % s.nodes.length]? = some node →
      (mapLookup s.clients node.ID = none →
        getNodeForID s objectID =
          .error (node, "client for node " ++ node.Name ++ " not initialized")) ∧
      (∀ client, mapLookup s.clients node.ID = some client →
        getNodeForID s objectID = .ok (node, client))) ∧
    (∀ name : String,
      "client for node " ++ name ++ " not initialized" ≠ "no storage nodes available") := by
  have part3 : ∀ node, s.nodes[fnv32a (goBytes objectID) % s.nodes.length]? = some node →
      (mapLookup s.clients node.ID = none →
        getNodeForID s objectID =
          .error (node, "client for node " ++ node.Name ++ " not initialized")) ∧
      (∀ client, mapLookup s.clients node.ID = some client →
        getNodeForID s objectID = .ok (node, client)) := by
    intro node hnode
    have hn : s.nodes ≠ [] := by
      intro h0
      rw [h0] at hnode
      simp at hnode
    obtain ⟨n, hn1, hget⟩ := getNodeForID_of_nodes s objectID hn
    rw [hnode] at hn1
    have hnn : node = n := Option.some.inj hn1
    subst hnn
    constructor
    · intro hl
      rw [hget, hl]
    · intro client hl
      rw [hget, hl]
  refine ⟨⟨?_, ?_⟩, getNodeForID_of_nil s objectID, part3, notInitialized_ne_noNodes⟩
  · rintro ⟨e, he⟩
    by_cases hn : s.nodes = []
    · exact Or.inl hn
    · right
      obtain ⟨n, hn1, hget⟩ := getNodeForID_of_nodes s objectID hn
      refine ⟨n, hn1, ?_⟩
      cases hl : mapLookup s.clients n.ID with
      | none => rfl
      | some c =>
        rw [hget, hl] at he
        cases he
  · rintro (hn | ⟨node, hnode, hl⟩)
    · exact ⟨_, getNodeForID_of_nil s objectID hn⟩
    · exact ⟨_, (part3 node hnode).1 hl⟩

/-- C6: an identifier that fails validation makes `PutObject` and `GetObject`
return the validation error with no backend call, whatever the nodes and clients
are; the text is `"object ID must be between 1 and 32 characters"` when the byte
length is 0 or above 32 and `"object ID must contain only alphanumeric characters"`
otherwise, and these are exactly the texts both handlers answer with status 400. -/
theorem C6_validation_first (s : minioStorageService) (w : Store)
    (fault : Option BackendError) (f : GetFaults) (objectID : String) (data : List Nat)
    (size : Int) (hv : validateObjectID objectID ≠ none) :
    ∃ msg, validateObjectID objectID = some msg ∧
      msg = (if len objectID = 0 ∨ 32 < len objectID then
          "object ID must be between 1 and 32 characters"
        else "object ID must contain only alphanumeric characters") ∧
      PutObject s w fault objectID data size = ⟨some msg, w, []⟩ ∧
      (GetObject s w f objectID).res = .error msg ∧
      (GetObject s w f objectID).calls = [] ∧
      (HandleGetObject (.error msg)).status = 400 ∧
      (∀ (storage : String → List Nat → Int → Option String) (body : List Nat) (cl : Int),
        0 < cl → storage objectID body cl = some msg →
          (HandlePutObject storage objectID body cl).1.status = 400) ∧
      (∀ err : String, (HandleGetObject (.error err)).status = 400 ↔
        (err = "object ID must contain only alphanumeric characters" ∨
          err = "object ID must be between 1 and 32 characters")) ∧
      (∀ (storage : String → List Nat → Int → Option String) (id : String) (body : List Nat)
          (cl : Int) (err : String), 0 < cl → storage id body cl = some err →
        ((HandlePutObject storage id body cl).1.status = 400 ↔
          (err = "object ID must contain only alphanumeric characters" ∨
            err = "object ID must be between 1 and 32 characters"))) := by
  have hget400 : ∀ err : String, (HandleGetObject (.error err)).status = 400 ↔
      (err = "object ID must contain only alphanumeric characters" ∨
        err = "object ID must be between 1 and 32 characters") := by
    intro err
    unfold HandleGetObject
    by_cases h1 : err = "object ID must contain only alphanumeric characters" ∨
        err = "object ID must be between 1 and 32 characters"
    · simp [h1, cJSON]
    · by_cases h2 : err = "object not found"
      · simp [h2, cJSON]
      · simp [h1, h2, cJSON]
  have hput400 : ∀ (storage : String → List Nat → Int → Option String) (id : String)
      (body : List Nat) (cl : Int) (err : String), 0 < cl → storage id body cl = some err →
      ((HandlePutObject storage id body cl).1.status = 400 ↔
        (err = "object ID must contain only alphanumeric characters" ∨
          err = "object ID must be between 1 and 32 characters")) := by
    intro storage id body cl err hcl hst
    unfold HandlePutObject
    rw [if_neg (by omega), hst]
    by_cases h1 : err = "object ID must contain only alphanumeric characters" ∨
        err = "object ID must be between 1 and 32 characters"
    · simp [h1, cJSON]
    · simp [h1, cJSON]
  have hmsg : ∃ msg, validateObjectID objectID = some msg ∧
      msg = (if len objectID = 0 ∨ 32 < len objectID then
          "object ID must be between 1 and 32 characters"
        else "object ID must contain only alphanumeric characters") := by
    unfold validateObjectID at hv ⊢
    by_cases hl : len objectID = 0 ∨ len objectID > 32
    · exact ⟨_, by rw [if_pos hl], by rw [if_pos hl]⟩
    · rw [if_neg hl] at hv ⊢
      have key : ∀ cs : List Char, validateChars cs ≠ none →
          validateChars cs = some "object ID must contain only alphanumeric characters" := by
        intro cs
        induction cs with
        | nil => intro h; exact absurd rfl h
        | cons c rest ih =>
          intro h
          unfold validateChars at h ⊢
          by_cases hc : isAlnum c
          · simp only [hc, not_true_eq_false, if_false] at h ⊢
            exact ih h
          · simp [hc]
      exact ⟨_, key _ hv, by rw [if_neg hl]⟩
  obtain ⟨msg, hm1, hm2⟩ := hmsg
  have hm3 : msg = "object ID must contain only alphanumeric characters" ∨
      msg = "object ID must be between 1 and 32 characters" := by
    rw [hm2]
    split_ifs
    · exact Or.inr rfl
    · exact Or.inl rfl
  refine ⟨msg, hm1, hm2, ?_, ?_, ?_, (hget400 msg).2 hm3, ?_, hget400, hput400⟩
  · simp [PutObject, hm1]
  · simp [GetObject, hm1]
  · simp [GetObject, hm1]
  · intro storage body cl hcl hst
    exact (hput400 storage objectID body cl msg hcl hst).2 hm3

/-- Witness for C6: `"abc!"` on a registry without nodes. -/
theorem C6_validation_first_witness :
    validateObjectID "abc!" ≠ none ∧
    ∃ msg, validateObjectID "abc!" = some msg ∧
      msg = (if len "abc!" = 0 ∨ 32 < len "abc!" then
          "object ID must be between 1 and 32 characters"
        else "object ID must contain only alphanumeric characters") ∧
      PutObject ⟨[], []⟩ [] none "abc!" [7] 1 = ⟨some msg, [], []⟩ ∧
      (GetObject ⟨[], []⟩ [] GetFaults.none "abc!").res = .error msg ∧
      (GetObject ⟨[], []⟩ [] GetFaults.none "abc!").calls = [] ∧
      (HandleGetObject (.error msg)).status = 400 ∧
      (∀ (storage : String → List Nat → Int → Option String) (body : List Nat) (cl : Int),
        0 < cl → storage "abc!" body cl = some msg →
          (HandlePutObject storage "abc!" body cl).1.status = 400) ∧
      (∀ err : String, (HandleGetObject (.error err)).status = 400 ↔
        (err = "object ID must contain only alphanumeric characters" ∨
          err = "object ID must be between 1 and 32 characters")) ∧
      (∀ (storage : String → List Nat → Int → Option String) (id : String) (body : List Nat)
          (cl : Int) (err : String), 0 < cl → storage id body cl = some err →
        ((HandlePutObject storage id body cl).1.status = 400 ↔
          (err = "object ID must contain only alphanumeric characters" ∨
            err = "object ID must be between 1 and 32 characters"))) :=
  ⟨by decide, C6_validation_first ⟨[], []⟩ [] none GetFaults.none "abc!" [7] 1 (by decide)⟩

/-- C7: for a node list with pairwise distinct IDs and any initialization
outcomes, after `NewminioStorageService` a node's ID is a key of clients exactly
when one of the `initializeClient` calls for that node returned nil; if all calls
for a node failed, a service is still returned, `getNodeForID` gives that node's
client-not-initialized error exactly for the identifiers routed to it, and
identifiers routed to a node with a successful call resolve to a client. -/
theorem C7_degraded_registry (nodes : List MinioNode) (outcomes : Nat → Nat → InitOutcome)
    (hd : (nodes.map (fun n => n.ID)).Nodup) :
    (NewminioStorageService nodes outcomes).1.nodes = nodes ∧
    (NewminioStorageService nodes outcomes).2.length = nodes.length ∧
    ∀ (i : Nat) (node : MinioNode) (log : List (Option String)),
      nodes[i]? = some node → (NewminioStorageService nodes outcomes).2[i]? = some log →
      (mapLookup (NewminioStorageService nodes outcomes).1.clients node.ID ≠ none ↔
        none ∈ log) ∧
      ((∀ e ∈ log, e ≠ none) → ∀ objectID : String,
        (getNodeForID (NewminioStorageService nodes outcomes).1 objectID =
            .error (node, "client for node " ++ node.Name ++ " not initialized") ↔
          nodeIndex (NewminioStorageService nodes outcomes).1 objectID = (i : Int))) ∧
      (none ∈ log → ∀ objectID : String,
        nodeIndex (NewminioStorageService nodes outcomes).1 objectID = (i : Int) →
          ∃ client, getNodeForID (NewminioStorageService nodes outcomes).1 objectID =
            .ok (node, client)) := by
  obtain ⟨s1, s2, _, s4⟩ := initNodes_spec outcomes nodes 0 { nodes := nodes, clients := [] }
  have hnodes : (NewminioStorageService nodes outcomes).1.nodes = nodes := s1
  refine ⟨hnodes, s2, ?_⟩
  intro i node log hi hlog
  have hkey : mapLookup (NewminioStorageService nodes outcomes).1.clients node.ID ≠ none ↔
      none ∈ log := by
    have h := s4 node.ID
    constructor
    · intro hne
      rcases (h.1 hne) with h0 | ⟨j, nd, lg, h1, h2, h3, h4⟩
      · exact absurd rfl h0
      · have hji : j = i := index_unique_of_nodup_ID nodes hd j i nd node h1 hi h3
        subst hji
        have h5 : (NewminioStorageService nodes outcomes).2[j]? = some lg := h2
        rw [hlog] at h5
        rw [Option.some.inj h5]
        exact h4
    · intro hmem
      exact h.2 (Or.inr ⟨i, node, log, hi, hlog, rfl, hmem⟩)
  have hne : (NewminioStorageService nodes outcomes).1.nodes ≠ [] := by
    rw [hnodes]
    intro h0
    rw [h0] at hi
    simp at hi
  have route : ∀ objectID : String, ∃ n,
      nodes[fnv32a (goBytes objectID) % nodes.length]? = some n ∧
      nodeIndex (NewminioStorageService nodes outcomes).1 objectID =
        ((fnv32a (goBytes objectID) % nodes.length : Nat) : Int) ∧
      getNodeForID (NewminioStorageService nodes outcomes).1 objectID =
        match mapLookup (NewminioStorageService nodes outcomes).1.clients n.ID with
        | none => .error (n, "client for node " ++ n.Name ++ " not initialized")
        | some client => .ok (n, client) := by
    intro objectID
    obtain ⟨n, hn1, hn2⟩ := getNodeForID_of_nodes _ objectID hne
    have hidx := nodeIndex_eq (NewminioStorageService nodes outcomes).1 objectID
    rw [hnodes] at hn1 hidx
    exact ⟨n, hn1, hidx, hn2⟩
  refine ⟨hkey, ?_, ?_⟩
  · intro hall objectID
    have hnone : mapLookup (NewminioStorageService nodes outcomes).1.clients node.ID = none := by
      by_contra hc
      exact hall none (hkey.1 hc) rfl
    obtain ⟨n, hn1, hidx, hget⟩ := route objectID
    rw [hidx, hget]
    constructor
    · intro heq
      cases hl : mapLookup (NewminioStorageService nodes outcomes).1.clients n.ID with
      | none =>
        rw [hl] at heq
        injection heq with heq
        have hnn : n = node := (Prod.mk.inj heq).1
        have := index_unique_of_nodup_ID nodes hd _ i n node hn1 hi (by rw [hnn])
        rw [this]
      | some c =>
        rw [hl] at heq
        cases heq
    · intro hi2
      have hi3 : fnv32a (goBytes objectID) % nodes.length = i := by omega
      rw [hi3, hi] at hn1
      have hnn : node = n := Option.some.inj hn1
      subst hnn
      rw [hnone]
  · intro hmem objectID hi2
    obtain ⟨n, hn1, hidx, hget⟩ := route objectID
    rw [hidx] at hi2
    have hi3 : fnv32a (goBytes objectID) % nodes.length = i := by omega
    rw [hi3, hi] at hn1
    have hnn : node = n := Option.some.inj hn1
    subst hnn
    cases hl : mapLookup (NewminioStorageService nodes outcomes).1.clients node.ID with
    | none => exact absurd hl (hkey.2 hmem)
    | some c =>
      rw [hget, hl]
      exact ⟨c, rfl⟩

/-- Witness for C7: two nodes, the first of which never comes up. -/
theorem C7_degraded_registry_witness :
    ([nodeA, nodeB].map (fun n => n.ID)).Nodup ∧
    (NewminioStorageService [nodeA, nodeB] firstNodeDown).1.nodes = [nodeA, nodeB] ∧
    (NewminioStorageService [nodeA, nodeB] firstNodeDown).1.clients =
      [("idb", ⟨"10.0.0.2:9000", "ak", "sk", 1⟩)] ∧
    getNodeForID (NewminioStorageService [nodeA, nodeB] firstNodeDown).1 "a" =
      .error (nodeA, "client for node minio-a not initialized") :=
  ⟨by decide, (C7_degraded_registry [nodeA, nodeB] firstNodeDown (by decide)).1, by rfl,
    by rfl⟩

/-- C8, counterexample: when every attempt fails, `initializeClient` is called
six times for the node, not five; and after five failed attempts the node is not
given up on, since a sixth attempt that succeeds registers its client. -/
theorem C8_six_attempts :
    (NewminioStorageService [nodeA] allFail).2 =
      [[some "failed to check if bucket exists: connection refused",
        some "failed to check if bucket exists: connection refused",
        some "failed to check if bucket exists: connection refused",
        some "failed to check if bucket exists: connection refused",
        some "failed to check if bucket exists: connection refused",
        some "failed to check if bucket exists: connection refused"]] ∧
    ¬ (∀ log ∈ (NewminioStorageService [nodeA] allFail).2, log.length ≤ 5) ∧
    (NewminioStorageService [nodeA] sixthSucceeds).2 =
      [[some "failed to check if bucket exists: connection refused",
        some "failed to check if bucket exists: connection refused",
        some "failed to check if bucket exists: connection refused",
        some "failed to check if bucket exists: connection refused",
        some "failed to check if bucket exists: connection refused",
        none]] ∧
    (NewminioStorageService [nodeA] sixthSucceeds).1.clients =
      [("ida", ⟨"10.0.0.1:9000", "ak", "sk", 5⟩)] := by
  refine ⟨by rfl, ?_, by rfl, by rfl⟩
  intro h
  have hlog : (NewminioStorageService [nodeA] allFail).2 =
      [List.replicate 6 (some "failed to check if bucket exists: connection refused")] := by
    rfl
  rw [hlog] at h
  have := h _ (List.mem_singleton.2 rfl)
  simp at this

/-- C8, amended: for every node list and every pattern of initialization
outcomes, `NewminioStorageService` makes at least one and at most six
`initializeClient` calls for each node of the list, and exactly six when all of
them fail. -/
theorem C8_at_most_six_attempts (nodes : List MinioNode) (outcomes : Nat → Nat → InitOutcome) :
    (NewminioStorageService nodes outcomes).2.length = nodes.length ∧
    ∀ log ∈ (NewminioStorageService nodes outcomes).2,
      1 ≤ log.length ∧ log.length ≤ 6 ∧ ((∀ e ∈ log, e ≠ none) → log.length = 6) := by
  obtain ⟨_, s2, s3, _⟩ := initNodes_spec outcomes nodes 0 { nodes := nodes, clients := [] }
  exact ⟨s2, s3⟩

/-- C9, the code at the failing inputs: when the first `initializeClient` call
for a node succeeds, a second call is made; if it succeeds too, two handles have
been built and the second replaces the first in clients, and if it fails the
first handle stays registered. -/
theorem C9_second_call_after_success :
    NewminioStorageService [nodeA] allSucceed =
      (⟨[nodeA], [("ida", ⟨"10.0.0.1:9000", "ak", "sk", 1⟩)]⟩, [[none, none]]) ∧
    NewminioStorageService [nodeA] onlyFirstSucceeds =
      (⟨[nodeA], [("ida", ⟨"10.0.0.1:9000", "ak", "sk", 0⟩)]⟩,
        [[none, some "failed to check if bucket exists: connection refused"]]) :=
  ⟨by rfl, by rfl⟩

/-- C10, counterexample: one node is discovered and all its initialization
attempts fail; clients is empty and `newStorageGeneric` returns the service
instead of stopping with a fatal error. -/
theorem C10_empty_registry_returned :
    (NewminioStorageService [nodeA] allFail).1.clients = [] ∧
    newStorageGeneric none (.ok [nodeA]) allFail = .ok ⟨[nodeA], []⟩ :=
  ⟨by rfl, by rfl⟩

/-- C10, amended: `newStorageGeneric` stops with a fatal log exactly when the
Docker client cannot be built, discovery fails or discovery finds no node; for a
non-empty discovered list it returns the service built by
`NewminioStorageService`, and when clients is empty on that service every
`getNodeForID` call fails with the client-not-initialized error of the selected
node. -/
theorem C10_fatal_only_without_nodes (dockerErr : Option String)
    (discovered : Except String (List MinioNode)) (outcomes : Nat → Nat → InitOutcome) :
    ((∃ m, newStorageGeneric dockerErr discovered outcomes = .error m) ↔
      (dockerErr ≠ none ∨ (∃ e, discovered = .error e) ∨ discovered = .ok [])) ∧
    (∀ nodes : List MinioNode, dockerErr = none → discovered = .ok nodes → nodes ≠ [] →
      newStorageGeneric dockerErr discovered outcomes =
        .ok (NewminioStorageService nodes outcomes).1 ∧
      ((NewminioStorageService nodes outcomes).1.clients = [] →
        ∀ objectID : String, ∃ node,
          nodes[fnv32a (goBytes objectID) % nodes.length]? = some node ∧
          getNodeForID (NewminioStorageService nodes outcomes).1 objectID =
            .error (node, "client for node " ++ node.Name ++ " not initialized"))) := by
  constructor
  · unfold newStorageGeneric
    cases dockerErr with
    | some e => simp
    | none =>
      cases discovered with
      | error e => simp
      | ok nodes =>
        cases nodes with
        | nil => simp
        | cons n rest => simp
  · intro nodes hd hdisc hne
    subst hd
    subst hdisc
    have hlen : ¬ nodes.length = 0 := fun h => hne (List.length_eq_zero.1 h)
    refine ⟨by simp [newStorageGeneric, hlen], ?_⟩
    intro hempty objectID
    obtain ⟨s1, _, _, _⟩ := initNodes_spec outcomes nodes 0 { nodes := nodes, clients := [] }
    have hnodes : (NewminioStorageService nodes outcomes).1.nodes = nodes := s1
    obtain ⟨n, hn1, hn2⟩ := getNodeForID_of_nodes (NewminioStorageService nodes outcomes).1
      objectID (by rw [hnodes]; exact hne)
    rw [hnodes] at hn1
    refine ⟨n, hn1, ?_⟩
    rw [hn2, hempty]
    rfl

/-- C11: in every state reached by `NewminioStorageService` followed by any
sequence of `PutObject` and `GetObject` calls, every key of clients is the ID of a
descriptor in nodes, and the calls leave nodes and clients as construction left
them. -/
theorem C11_clients_keys_in_nodes (nodes : List MinioNode)
    (outcomes : Nat → Nat → InitOutcome) (w : Store) (ops : List Op) :
    (∀ kv ∈ (run ⟨(NewminioStorageService nodes outcomes).1, w⟩ ops).service.clients,
      ∃ node ∈ (run ⟨(NewminioStorageService nodes outcomes).1, w⟩ ops).service.nodes,
        node.ID = kv.1) ∧
    (run ⟨(NewminioStorageService nodes outcomes).1, w⟩ ops).service.nodes =
      (NewminioStorageService nodes outcomes).1.nodes ∧
    (run ⟨(NewminioStorageService nodes outcomes).1, w⟩ ops).service.clients =
      (NewminioStorageService nodes outcomes).1.clients ∧
    (NewminioStorageService nodes outcomes).1.nodes = nodes := by
  obtain ⟨s1, _, _, _⟩ := initNodes_spec outcomes nodes 0 { nodes := nodes, clients := [] }
  have hnodes : (NewminioStorageService nodes outcomes).1.nodes = nodes := s1
  rw [run_service]
  refine ⟨?_, rfl, rfl, hnodes⟩
  intro kv hkv
  rw [hnodes]
  exact clients_keys_after_construction nodes outcomes kv hkv

/-- C12: for every outcome of `GetObject`, `HandleGetObject` answers 200 with
`Content-Type: application/octet-stream` and exactly the bytes of the stream when
there is no error, 400 with status `"error"` and the error text as message for the
two validation texts, 404 with message `"Object not found"` for the text
`"object not found"`, and 500 with message `"Failed to retrieve object"` for every
other error. -/
theorem C12_HandleGetObject_responses :
    (∀ obj : Stream, obj.readErr = none →
      HandleGetObjectStream (.ok obj) =
        ⟨200, "application/octet-stream", Body.raw obj.bytes⟩) ∧
    (∀ bytes : List Nat,
      HandleGetObject (.ok bytes) = ⟨200, "application/octet-stream", Body.raw bytes⟩) ∧
    (∀ err : String,
      (err = "object ID must contain only alphanumeric characters" ∨
        err = "object ID must be between 1 and 32 characters") →
      HandleGetObjectStream (.error err) =
        ⟨400, "application/json; charset=utf-8", Body.json ⟨"error", err⟩⟩) ∧
    HandleGetObjectStream (.error "object not found") =
      ⟨404, "application/json; charset=utf-8", Body.json ⟨"error", "Object not found"⟩⟩ ∧
    (∀ err : String,
      err ≠ "object ID must contain only alphanumeric characters" →
      err ≠ "object ID must be between 1 and 32 characters" →
      err ≠ "object not found" →
      HandleGetObjectStream (.error err) =
        ⟨500, "application/json; charset=utf-8",
          Body.json ⟨"error", "Failed to retrieve object"⟩⟩) ∧
    (∀ err : String, HandleGetObject (.error err) = HandleGetObjectStream (.error err)) := by
  refine ⟨?_, fun _ => rfl, ?_, by decide, ?_, fun _ => rfl⟩
  · intro obj h
    simp [HandleGetObjectStream, h]
  · intro err h
    simp [HandleGetObjectStream, h, cJSON, BuildResponse]
  · intro err h1 h2 h3
    simp [HandleGetObjectStream, h1, h2, h3, cJSON, BuildResponse]

/-- C13: `HandlePutObject` answers 400 with message
`"Content-Length header is required"` without calling the storage service when
the content length is absent or not positive; otherwise it calls `PutObject`
once with the path id, the body and that length, and answers 201 with status
`"success"` and message `"Object <id> stored successfully"` on success, 400 with
the error text as message for the two validation texts, and 500 with message
`"Failed to store object"` for every other error. -/
theorem C13_HandlePutObject_responses
    (storage : String → List Nat → Int → Option String) (objectID : String)
    (body : List Nat) (contentLength : Int) :
    (contentLength ≤ 0 →
      HandlePutObject storage objectID body contentLength =
        (⟨400, "application/json; charset=utf-8",
            Body.json ⟨"error", "Content-Length header is required"⟩⟩, [])) ∧
    (0 < contentLength →
      (HandlePutObject storage objectID body contentLength).2 =
          [(objectID, body, contentLength)] ∧
      (storage objectID body contentLength = none →
        (HandlePutObject storage objectID body contentLength).1 =
          ⟨201, "application/json; charset=utf-8",
            Body.json ⟨"success", "Object " ++ objectID ++ " stored successfully"⟩⟩) ∧
      (∀ err : String, storage objectID body contentLength = some err →
        ((err = "object ID must contain only alphanumeric characters" ∨
            err = "object ID must be between 1 and 32 characters") →
          (HandlePutObject storage objectID body contentLength).1 =
            ⟨400, "application/json; charset=utf-8", Body.json ⟨"error", err⟩⟩) ∧
        (err ≠ "object ID must contain only alphanumeric characters" →
          err ≠ "object ID must be between 1 and 32 characters" →
          (HandlePutObject storage objectID body contentLength).1 =
            ⟨500, "application/json; charset=utf-8",
              Body.json ⟨"error", "Failed to store object"⟩⟩))) := by
  constructor
  · intro h
    simp [HandlePutObject, h, cJSON, BuildResponse]
  · intro h
    have hn : ¬ contentLength ≤ 0 := by omega
    refine ⟨?_, ?_, ?_⟩
    · unfold HandlePutObject
      rw [if_neg hn]
      cases storage objectID body contentLength with
      | none => rfl
      | some err =>
        simp only []
        split_ifs <;> rfl
    · intro hs
      simp [HandlePutObject, hn, hs, cJSON, BuildResponse]
    · intro err hs
      constructor
      · intro he
        simp [HandlePutObject, hn, hs, he, cJSON, BuildResponse]
      · intro h1 h2
        simp [HandlePutObject, hn, hs, h1, h2, cJSON, BuildResponse]

/-- C14: for every node list of length at least 2 there are two valid object
identifiers that `getNodeForID` routes to different node indices. -/
theorem C14_routing_not_constant (s : minioStorageService) (h : 2 ≤ s.nodes.length) :
    ∃ id1 id2 : String,
      validateObjectID id1 = none ∧ validateObjectID id2 = none ∧
      nodeIndex s id1 ≠ nodeIndex s id2 ∧
      fnv32a (goBytes id1) % s.nodes.length ≠ fnv32a (goBytes id2) % s.nodes.length := by
  have ha : fnv32a (goBytes "a") = 3826002220 := by decide
  have hb : fnv32a (goBytes "b") = 3876335077 := by decide
  have h0 : fnv32a (goBytes "0") = 890022063 := by decide
  have hidx : ∀ x y : String,
      fnv32a (goBytes x) % s.nodes.length ≠ fnv32a (goBytes y) % s.nodes.length →
      nodeIndex s x ≠ nodeIndex s y := by
    intro x y hne hxy
    rw [nodeIndex_eq, nodeIndex_eq] at hxy
    exact hne (Int.ofNat.inj hxy)
  by_cases hab : fnv32a (goBytes "a") % s.nodes.length = fnv32a (goBytes "b") % s.nodes.length
  · have ha0 : fnv32a (goBytes "0") % s.nodes.length ≠ fnv32a (goBytes "a") % s.nodes.length := by
      intro h0a
      rw [ha, hb] at hab
      rw [ha, h0] at h0a
      have d1 : s.nodes.length ∣ 3876335077 - 3826002220 :=
        (Nat.modEq_iff_dvd' (by norm_num)).1 hab
      have d2 : s.nodes.length ∣ 3826002220 - 890022063 :=
        (Nat.modEq_iff_dvd' (by norm_num)).1 h0a
      have d3 : s.nodes.length ∣ Nat.gcd (3876335077 - 3826002220) (3826002220 - 890022063) :=
        Nat.dvd_gcd d1 d2
      have hg : Nat.gcd (3876335077 - 3826002220) (3826002220 - 890022063) = 1 := by
        norm_num
      rw [hg] at d3
      have := Nat.eq_one_of_dvd_one d3
      omega
    exact ⟨"0", "a", by decide, by decide, hidx _ _ ha0, ha0⟩
  · exact ⟨"a", "b", by decide, by decide, hidx _ _ hab, hab⟩

/-- Witness for C14: the two-node sample registry. -/
theorem C14_routing_not_constant_witness :
    2 ≤ demoService.nodes.length ∧
    ∃ id1 id2 : String,
      validateObjectID id1 = none ∧ validateObjectID id2 = none ∧
      nodeIndex demoService id1 ≠ nodeIndex demoService id2 ∧
      fnv32a (goBytes id1) % demoService.nodes.length ≠
        fnv32a (goBytes id2) % demoService.nodes.length :=
  ⟨by decide, C14_routing_not_constant demoService (by decide)⟩

end ObjectStorage

